import Mathlib

/-!
Verification of the X11 chained-hash pipeline from `src/contrib/x11/hashblock.h`.

The five 512-bit hash primitives (BLAKE-512, Groestl-512, CubeHash-512,
SHAvite-512, Echo-512) are external collaborators reached through the
`sph_*` interface; here each is an abstract function `List Nat → List Nat`
from message bytes to digest bytes.  The chaining code itself is embedded
faithfully:

* `trim256` is the copy loop `ret[i] = pn[i]` for `i < 32`;
* the stage-1 call passes the pointer `pbegin == pend ? pblank : pbegin`
  and the length `pend - pbegin`, embedded as `stage1Ptr` / `stage1Len`,
  with the bytes actually consumed being `stage1Msg`;
* each later stage reads exactly 64 bytes out of the previous 64-byte
  stack buffer `hash[i]`, embedded as `read64` (a byte beyond what the
  primitive wrote is an unspecified buffer byte, modelled as 0);
* the function unconditionally returns `true` together with the bytes
  written to `pResult`.
-/

/-- Constant from `#define HASH512_SIZE 64`. -/
def HASH512_SIZE : Nat := 64

/-- Constant from `#define HASH256_SIZE 32`. -/
def HASH256_SIZE : Nat := 32

/-- Embeds `trim256`: copies `pn[i]` into `ret[i]` for every `i < HASH256_SIZE`. -/
def trim256 (pn : List Nat) : List Nat :=
  (List.range HASH256_SIZE).map (fun i => pn.getD i 0)

/-- Reading the 64-byte stack buffer `hash[i]` that a primitive's
`close` call filled: byte `i < 64` is digest byte `i` when the
primitive wrote one, an unspecified buffer byte (modelled as 0)
otherwise. -/
def read64 (buf : List Nat) : List Nat :=
  (List.range HASH512_SIZE).map (fun i => buf.getD i 0)

/-- The data pointer handed to the stage-1 primitive:
`(pbegin == pend ? pblank : &pbegin[0])`. -/
def stage1Ptr (pblank input : List Nat) : List Nat :=
  if input = [] then pblank else input

/-- The length handed to the stage-1 primitive:
`(pend - pbegin) * sizeof(pbegin[0])`, i.e. the true input length. -/
def stage1Len (input : List Nat) : Nat :=
  input.length

/-- The bytes the stage-1 primitive actually absorbs: `stage1Len input`
bytes starting at `stage1Ptr pblank input`. -/
def stage1Msg (pblank input : List Nat) : List Nat :=
  (stage1Ptr pblank input).take (stage1Len input)

/-- Stage buffer `hash[0]`: BLAKE-512 over the caller's input range. -/
def x11h0 (blake : List Nat → List Nat) (pblank input : List Nat) : List Nat :=
  blake (stage1Msg pblank input)

/-- Stage buffer `hash[1]`: Groestl-512 over 64 bytes read from `hash[0]`. -/
def x11h1 (blake groestl : List Nat → List Nat) (pblank input : List Nat) : List Nat :=
  groestl (read64 (x11h0 blake pblank input))

/-- Stage buffer `hash[2]`: CubeHash-512 over 64 bytes read from `hash[1]`. -/
def x11h2 (blake groestl cubehash : List Nat → List Nat)
    (pblank input : List Nat) : List Nat :=
  cubehash (read64 (x11h1 blake groestl pblank input))

/-- Stage buffer `hash[3]`: SHAvite-512 over 64 bytes read from `hash[2]`. -/
def x11h3 (blake groestl cubehash shavite : List Nat → List Nat)
    (pblank input : List Nat) : List Nat :=
  shavite (read64 (x11h2 blake groestl cubehash pblank input))

/-- Stage buffer `hash[4]`: Echo-512 over 64 bytes read from `hash[3]`. -/
def x11h4 (blake groestl cubehash shavite echo : List Nat → List Nat)
    (pblank input : List Nat) : List Nat :=
  echo (read64 (x11h3 blake groestl cubehash shavite pblank input))

/-- Embeds `HashX11`: runs the five stages in order, copies the first 32 bytes of
`hash[4]` into `pResult` via `trim256`, and returns `true`.  The value is
the pair (returned bool, bytes written to `pResult`). -/
def HashX11 (blake groestl cubehash shavite echo : List Nat → List Nat)
    (pblank input : List Nat) : Bool × List Nat :=
  (true, trim256 (x11h4 blake groestl cubehash shavite echo pblank input))

/-- The only global state `HashX11` can touch: the function-local
`static unsigned char pblank[1]` buffer. -/
structure X11Globals where
  pblank : List Nat
  deriving Repr, DecidableEq

/-- Version of `HashX11` with the static storage threaded explicitly.  Every access
the source makes to `pblank` is a read (it is passed as a `const void *`
data pointer with length 0), so the state component passes through each
of the five stages unchanged. -/
def HashX11run (blake groestl cubehash shavite echo : List Nat → List Nat)
    (gs : X11Globals) (input : List Nat) : X11Globals × (Bool × List Nat) :=
  (gs, HashX11 blake groestl cubehash shavite echo gs.pblank input)

/-- A concrete 512-bit-digest test primitive, used as a test double:
digest byte `i` is `(k + sum of the message bytes + i) % 256`.  Always
emits exactly 64 bytes and genuinely depends on its message. -/
def testPrim (k : Nat) (m : List Nat) : List Nat :=
  (List.range HASH512_SIZE).map (fun i => (k + m.sum + i) % 256)

/-- A contract-violating test double that emits a 10-byte digest. -/
def shortPrim (m : List Nat) : List Nat :=
  List.replicate 10 (m.sum % 256)

/-- A degenerate test double ignoring its message. -/
def constPrim (c : Nat) (_m : List Nat) : List Nat :=
  List.replicate HASH512_SIZE c

-- ## Basic lemmas about the embedding

theorem read64_length (l : List Nat) : (read64 l).length = 64 := by
  simp [read64, HASH512_SIZE]

theorem trim256_length (l : List Nat) : (trim256 l).length = 32 := by
  simp [trim256, HASH256_SIZE]

theorem read64_eq_self (l : List Nat) (h : l.length = 64) : read64 l = l := by
  apply List.ext_getElem
  · simp [read64, HASH512_SIZE, h]
  · intro i h1 h2
    simp only [read64, HASH512_SIZE, List.getElem_map, List.getElem_range]
    rw [List.getD_eq_getElem]

theorem trim256_eq_take (l : List Nat) (h : 32 ≤ l.length) :
    trim256 l = l.take 32 := by
  apply List.ext_getElem
  · simp [trim256, HASH256_SIZE]
    omega
  · intro i h1 h2
    simp only [trim256, HASH256_SIZE, List.getElem_map, List.getElem_range,
      List.getElem_take]
    rw [List.getD_eq_getElem]

theorem stage1Msg_eq (pblank input : List Nat) :
    stage1Msg pblank input = input := by
  by_cases h : input = []
  · simp [stage1Msg, stage1Ptr, stage1Len, h]
  · simp [stage1Msg, stage1Ptr, stage1Len, h]

theorem testPrim_length (k : Nat) (m : List Nat) :
    (testPrim k m).length = 64 := by
  simp [testPrim, HASH512_SIZE]

/-- A test double that pads/reads its message into a 64-byte digest. -/
def padPrim (m : List Nat) : List Nat :=
  read64 m

theorem trim256_congr (d e : List Nat) (h : d.take 32 = e.take 32) :
    trim256 d = trim256 e := by
  simp only [trim256, HASH256_SIZE]
  apply List.map_congr_left
  intro i hi
  rw [List.mem_range] at hi
  have hd : d.getD i 0 = (d.take 32).getD i 0 := by
    simp only [List.getD_eq_getElem?_getD, List.getElem?_take_of_lt hi]
  have he : e.getD i 0 = (e.take 32).getD i 0 := by
    simp only [List.getD_eq_getElem?_getD, List.getElem?_take_of_lt hi]
  rw [hd, he, h]

-- ## Claims

/-- C1: `HashX11` runs exactly the five stages BLAKE-512, Groestl-512,
CubeHash-512, SHAvite-512, Echo-512 in this fixed order; stage 1 consumes
the caller's input bytes, and, the primitives emitting 64-byte digests,
every later stage consumes exactly the full 64-byte digest of the previous
stage; nothing is skipped or reordered. -/
theorem hashX11_stage_chain
    (blake groestl cubehash shavite echo : List Nat → List Nat)
    (pblank input : List Nat)
    (hb : ∀ m, (blake m).length = 64)
    (hg : ∀ m, (groestl m).length = 64)
    (hc : ∀ m, (cubehash m).length = 64)
    (hs : ∀ m, (shavite m).length = 64) :
    HashX11 blake groestl cubehash shavite echo pblank input
      = (true, trim256 (echo (shavite (cubehash (groestl (blake input)))))) := by
  simp only [HashX11, x11h4, x11h3, x11h2, x11h1, x11h0, stage1Msg_eq,
    read64_eq_self _ (hb _), read64_eq_self _ (hg _), read64_eq_self _ (hc _),
    read64_eq_self _ (hs _)]

theorem hashX11_stage_chain_witness :
    HashX11 (testPrim 1) (testPrim 2) (testPrim 3) (testPrim 4) (testPrim 5)
        [0] [10, 20]
      = (true, trim256 ((testPrim 5) ((testPrim 4) ((testPrim 3)
          ((testPrim 2) ((testPrim 1) [10, 20])))))) :=
  hashX11_stage_chain (testPrim 1) (testPrim 2) (testPrim 3) (testPrim 4)
    (testPrim 5) [0] [10, 20]
    (testPrim_length 1) (testPrim_length 2) (testPrim_length 3) (testPrim_length 4)

/-- C2: the 32-byte result is exactly the first 32 bytes of the fifth
stage's digest, copied byte-for-byte in order, and bytes 32..63 of a
digest have no influence on the trimmed result. -/
theorem hashX11_result_is_take32
    (blake groestl cubehash shavite echo : List Nat → List Nat)
    (pblank input : List Nat)
    (he : 32 ≤ (x11h4 blake groestl cubehash shavite echo pblank input).length) :
    (HashX11 blake groestl cubehash shavite echo pblank input).snd
        = (x11h4 blake groestl cubehash shavite echo pblank input).take 32
      ∧ ∀ d e : List Nat, d.take 32 = e.take 32 → trim256 d = trim256 e := by
  refine ⟨?_, trim256_congr⟩
  simp only [HashX11]
  exact trim256_eq_take _ he

theorem hashX11_result_is_take32_witness :
    (HashX11 (testPrim 1) (testPrim 2) (testPrim 3) (testPrim 4) (testPrim 5)
          [0] [10, 20]).snd
        = (x11h4 (testPrim 1) (testPrim 2) (testPrim 3) (testPrim 4) (testPrim 5)
          [0] [10, 20]).take 32
      ∧ ∀ d e : List Nat, d.take 32 = e.take 32 → trim256 d = trim256 e :=
  hashX11_result_is_take32 (testPrim 1) (testPrim 2) (testPrim 3) (testPrim 4)
    (testPrim 5) [0] [10, 20]
    (by simp only [x11h4, testPrim_length]; omega)

/-- C3: on a zero-length input the stage-1 primitive is handed the
placeholder buffer `pblank` as its data pointer, but the length argument
is the true input length 0 (so zero bytes are absorbed), and the call
still produces a well-defined result: `true` and a 32-byte output. -/
theorem hashX11_empty_input
    (blake groestl cubehash shavite echo : List Nat → List Nat)
    (pblank : List Nat) :
    stage1Ptr pblank [] = pblank
      ∧ stage1Len [] = 0
      ∧ stage1Msg pblank [] = []
      ∧ (HashX11 blake groestl cubehash shavite echo pblank []).fst = true
      ∧ (HashX11 blake groestl cubehash shavite echo pblank []).snd.length = 32 :=
  ⟨rfl, rfl, stage1Msg_eq pblank [], rfl, trim256_length _⟩

/-- C4: `HashX11` is deterministic: two invocations on identical input
bytes, with the same (pure) primitives and placeholder, yield identical
results. -/
theorem hashX11_deterministic
    (blake groestl cubehash shavite echo : List Nat → List Nat)
    (pblank : List Nat) (x y : List Nat) (h : x = y) :
    HashX11 blake groestl cubehash shavite echo pblank x
      = HashX11 blake groestl cubehash shavite echo pblank y := by
  rw [h]

theorem hashX11_deterministic_witness :
    HashX11 (testPrim 1) (testPrim 2) (testPrim 3) (testPrim 4) (testPrim 5)
        [0] [7, 7, 7]
      = HashX11 (testPrim 1) (testPrim 2) (testPrim 3) (testPrim 4) (testPrim 5)
        [0] [7, 7, 7] :=
  hashX11_deterministic (testPrim 1) (testPrim 2) (testPrim 3) (testPrim 4)
    (testPrim 5) [0] [7, 7, 7] [7, 7, 7] rfl

/-- C5: `HashX11` succeeds unconditionally: for every input (the empty
one included) it returns `true`; there is no reachable failure path. -/
theorem hashX11_always_true
    (blake groestl cubehash shavite echo : List Nat → List Nat)
    (pblank input : List Nat) :
    (HashX11 blake groestl cubehash shavite echo pblank input).fst = true :=
  rfl

/-- C6: when the five primitives satisfy the 64-byte-digest contract,
every stage digest is exactly 64 bytes, each of the four re-hash stages
reads exactly 64 bytes of its predecessor's buffer, and the final output
is exactly 32 bytes, for every input length from 0 upward. -/
theorem hashX11_sizes
    (blake groestl cubehash shavite echo : List Nat → List Nat)
    (pblank input : List Nat)
    (hb : ∀ m, (blake m).length = 64)
    (hg : ∀ m, (groestl m).length = 64)
    (hc : ∀ m, (cubehash m).length = 64)
    (hs : ∀ m, (shavite m).length = 64)
    (he : ∀ m, (echo m).length = 64) :
    (x11h0 blake pblank input).length = 64
      ∧ (x11h1 blake groestl pblank input).length = 64
      ∧ (x11h2 blake groestl cubehash pblank input).length = 64
      ∧ (x11h3 blake groestl cubehash shavite pblank input).length = 64
      ∧ (x11h4 blake groestl cubehash shavite echo pblank input).length = 64
      ∧ (read64 (x11h0 blake pblank input)).length = 64
      ∧ (read64 (x11h1 blake groestl pblank input)).length = 64
      ∧ (read64 (x11h2 blake groestl cubehash pblank input)).length = 64
      ∧ (read64 (x11h3 blake groestl cubehash shavite pblank input)).length = 64
      ∧ (HashX11 blake groestl cubehash shavite echo pblank input).snd.length = 32 :=
  ⟨hb _, hg _, hc _, hs _, he _, read64_length _, read64_length _,
    read64_length _, read64_length _, trim256_length _⟩

theorem hashX11_sizes_witness :
    (x11h0 (testPrim 1) [0] []).length = 64
      ∧ (x11h1 (testPrim 1) (testPrim 2) [0] []).length = 64
      ∧ (x11h2 (testPrim 1) (testPrim 2) (testPrim 3) [0] []).length = 64
      ∧ (x11h3 (testPrim 1) (testPrim 2) (testPrim 3) (testPrim 4) [0] []).length = 64
      ∧ (x11h4 (testPrim 1) (testPrim 2) (testPrim 3) (testPrim 4) (testPrim 5)
          [0] []).length = 64
      ∧ (read64 (x11h0 (testPrim 1) [0] [])).length = 64
      ∧ (read64 (x11h1 (testPrim 1) (testPrim 2) [0] [])).length = 64
      ∧ (read64 (x11h2 (testPrim 1) (testPrim 2) (testPrim 3) [0] [])).length = 64
      ∧ (read64 (x11h3 (testPrim 1) (testPrim 2) (testPrim 3) (testPrim 4)
          [0] [])).length = 64
      ∧ (HashX11 (testPrim 1) (testPrim 2) (testPrim 3) (testPrim 4) (testPrim 5)
          [0] []).snd.length = 32 :=
  hashX11_sizes (testPrim 1) (testPrim 2) (testPrim 3) (testPrim 4) (testPrim 5)
    [0] [] (testPrim_length 1) (testPrim_length 2) (testPrim_length 3)
    (testPrim_length 4) (testPrim_length 5)

/-- C7 counterexample: the implementation does not assert or fail fast on
a wrong-size stage digest.  With a stage-2 double returning a 10-byte
digest, `HashX11` still returns `true` and a 32-byte result: there is no
length check and no failure path. -/
theorem hashX11_no_size_assert_counterexample :
    (x11h1 (testPrim 1) shortPrim [0] [1, 2, 3]).length = 10
      ∧ (HashX11 (testPrim 1) shortPrim (testPrim 3) (testPrim 4) (testPrim 5)
          [0] [1, 2, 3]).fst = true
      ∧ (HashX11 (testPrim 1) shortPrim (testPrim 3) (testPrim 4) (testPrim 5)
          [0] [1, 2, 3]).snd.length = 32 := by
  refine ⟨by simp [x11h1, shortPrim], rfl, trim256_length _⟩

/-- C7 amended: `HashX11` contains no digest-length assertion and no
failure path at all: whatever the primitives return, it returns `true`
with a 32-byte result, and each re-hash stage always reads exactly 64
bytes from the fixed-size stage buffer, wrong-size digests being
precluded structurally by the 64-byte buffers rather than checked. -/
theorem hashX11_no_size_assert
    (blake groestl cubehash shavite echo : List Nat → List Nat)
    (pblank input : List Nat) :
    (HashX11 blake groestl cubehash shavite echo pblank input).fst = true
      ∧ (HashX11 blake groestl cubehash shavite echo pblank input).snd.length = 32
      ∧ (read64 (x11h0 blake pblank input)).length = 64
      ∧ (read64 (x11h1 blake groestl pblank input)).length = 64
      ∧ (read64 (x11h2 blake groestl cubehash pblank input)).length = 64
      ∧ (read64 (x11h3 blake groestl cubehash shavite pblank input)).length = 64 :=
  ⟨rfl, trim256_length _, read64_length _, read64_length _, read64_length _,
    read64_length _⟩

/-- C8: the value of the 1-byte placeholder buffer never influences the
result: for any two placeholder bytes, `HashX11` on the same input (empty
or not) produces the same output, because the length given to the first
primitive is the true input length. -/
theorem hashX11_placeholder_irrelevant
    (blake groestl cubehash shavite echo : List Nat → List Nat)
    (b b' : Nat) (input : List Nat) :
    HashX11 blake groestl cubehash shavite echo [b] input
      = HashX11 blake groestl cubehash shavite echo [b'] input := by
  simp only [HashX11, x11h4, x11h3, x11h2, x11h1, x11h0, stage1Msg_eq]

/-- C9: no stage is short-circuited: for each of the five stages there is
a replacement primitive and an input on which replacing that single
stage's primitive changes the final 32-byte output of `HashX11`. -/
theorem hashX11_stage_isolation :
    (∃ f : List Nat → List Nat, ∃ input : List Nat,
        HashX11 f padPrim padPrim padPrim padPrim [0] input
          ≠ HashX11 padPrim padPrim padPrim padPrim padPrim [0] input)
      ∧ (∃ f : List Nat → List Nat, ∃ input : List Nat,
        HashX11 padPrim f padPrim padPrim padPrim [0] input
          ≠ HashX11 padPrim padPrim padPrim padPrim padPrim [0] input)
      ∧ (∃ f : List Nat → List Nat, ∃ input : List Nat,
        HashX11 padPrim padPrim f padPrim padPrim [0] input
          ≠ HashX11 padPrim padPrim padPrim padPrim padPrim [0] input)
      ∧ (∃ f : List Nat → List Nat, ∃ input : List Nat,
        HashX11 padPrim padPrim padPrim f padPrim [0] input
          ≠ HashX11 padPrim padPrim padPrim padPrim padPrim [0] input)
      ∧ (∃ f : List Nat → List Nat, ∃ input : List Nat,
        HashX11 padPrim padPrim padPrim padPrim f [0] input
          ≠ HashX11 padPrim padPrim padPrim padPrim padPrim [0] input) :=
  ⟨⟨constPrim 1, [5], by decide⟩, ⟨constPrim 1, [5], by decide⟩,
    ⟨constPrim 1, [5], by decide⟩, ⟨constPrim 1, [5], by decide⟩,
    ⟨constPrim 1, [5], by decide⟩⟩

/-- C10: the static placeholder buffer is never written: with the static
storage threaded explicitly through the call, the state after `HashX11run`
equals the state before, and the result is exactly that of the pure
function. -/
theorem hashX11_frame
    (blake groestl cubehash shavite echo : List Nat → List Nat)
    (gs : X11Globals) (input : List Nat) :
    (HashX11run blake groestl cubehash shavite echo gs input).fst = gs
      ∧ (HashX11run blake groestl cubehash shavite echo gs input).snd
          = HashX11 blake groestl cubehash shavite echo gs.pblank input :=
  ⟨rfl, rfl⟩
